import Mathlib

/-!
Verification of the retrieval, grading and quiz-generation core of the
CS5342 tutoring application.

The TypeScript sources are shallowly embedded:
* JavaScript strings are modelled as Lean `String` (a list of characters);
  `toLowerCase`, `trim` and regular-expression matching are modelled as
  character-list functions.
* JavaScript numbers are modelled as real numbers (`ℝ`) for the embedding
  vectors and as rationals (`ℚ`) where exact evaluation is needed
  (random draws, relevance scores).
* Functions that can `throw` are modelled with `Except String`.
-/

open scoped Classical

/-! ## String model

JavaScript string primitives used by the grading and parsing code. -/

/-- Model of `String.prototype.toLowerCase`, applied characterwise. -/
def jsToLowerCase (s : String) : String :=
  ⟨s.data.map Char.toLower⟩

/-- Model of the `\s` character class of JavaScript regular expressions and
of the characters stripped by `String.prototype.trim`. -/
def jsWS (c : Char) : Bool :=
  c.isWhitespace

/-- Strip leading and trailing whitespace from a character list. -/
def trimChars (l : List Char) : List Char :=
  ((l.dropWhile jsWS).reverse.dropWhile jsWS).reverse

/-- Model of `String.prototype.trim`. -/
def jsTrim (s : String) : String :=
  ⟨trimChars s.data⟩

/-- Model of the JavaScript idiom `s || dflt` on strings: the empty string is
falsy, as is a missing (`undefined`) value. -/
def jsOrString (o : Option String) (dflt : String) : String :=
  match o with
  | some s => if s = "" then dflt else s
  | none => dflt

/-! ## Grading of closed-form questions

`src/app/api/quiz/route.ts` (grade action, multiple-choice / true-false
branch) and `QuizGenerator.gradeAnswer` in `src/lib/quiz-generator.ts`. -/

/-- The payload returned by grading a closed-form answer: score, correctness
flag and feedback text. -/
structure GradeResponse where
  score : Nat
  isCorrect : Bool
  feedback : String
deriving DecidableEq, Repr

/-- The grade action of `src/app/api/quiz/route.ts` for multiple-choice and
true-false questions:
`userAnswer.toLowerCase().trim() === correctAnswer.toLowerCase().trim()`. -/
def gradeClosedRoute (userAnswer correctAnswer : String) : GradeResponse :=
  let isC := jsTrim (jsToLowerCase userAnswer) == jsTrim (jsToLowerCase correctAnswer)
  { score := if isC then 100 else 0
    isCorrect := isC
    feedback := if isC then "Correct! Well done."
      else "Incorrect. The correct answer is: " ++ correctAnswer }

/-- The closed-form branch of `QuizGenerator.gradeAnswer` in
`src/lib/quiz-generator.ts`:
`userAnswer.toLowerCase() === question.correctAnswer?.toLowerCase()`;
a missing correct answer compares unequal. -/
def gradeAnswerClosed (userAnswer : String) (correctAnswer : Option String) : GradeResponse :=
  let isC := match correctAnswer with
    | some c => jsToLowerCase userAnswer == jsToLowerCase c
    | none => false
  { score := if isC then 100 else 0
    isCorrect := isC
    feedback := if isC then "Correct! Well done."
      else "Incorrect. The correct answer is: " ++ correctAnswer.getD ("undefined") }

/-- Case-insensitive string equality, the comparison named by the
specification for closed-form grading. -/
abbrev ciEq (u c : String) : Prop :=
  jsToLowerCase u = jsToLowerCase c

/-- Case-insensitive string equality after trimming surrounding whitespace,
the comparison actually performed by the quiz API route. -/
abbrev trimCiEq (u c : String) : Prop :=
  jsTrim (jsToLowerCase u) = jsTrim (jsToLowerCase c)

/-! ## Parsing of the open-ended grading response

`OllamaLLM.gradeAnswer` in `src/lib/document-processor.server.ts` matches the
generator output against `/Score:\s*(\d+)/i` and `/Feedback:\s*([\s\S]+)/i`
and falls back to a neutral score of 50 and the raw text. -/

/-- Case-insensitive literal match: if the pattern `pat` is a prefix of `s`
up to `Char.toLower`, return the rest of `s`. -/
def startsWithCI : List Char → List Char → Option (List Char)
  | [], s => some s
  | _ :: _, [] => none
  | p :: ps, c :: cs => if c.toLower = p.toLower then startsWithCI ps cs else none

/-- Value of a digit string, as computed by `parseInt` on a `\d+` capture. -/
def digitsToNat (l : List Char) : Nat :=
  l.foldl (fun n c => n * 10 + (c.toNat - ('0').toNat)) 0

/-- Attempt to match `/Score:\s*(\d+)/i` at the head of `s`, returning the
captured number.  Greedy `\s*` is exact here because `\s` and `\d` are
disjoint character classes. -/
def matchScoreAt (s : List Char) : Option Nat :=
  match startsWithCI (("Score:").data) s with
  | none => none
  | some rest =>
    let digits := (rest.dropWhile jsWS).takeWhile Char.isDigit
    if digits.isEmpty then none else some (digitsToNat digits)

/-- Scan `s` left to right for the first match of `/Score:\s*(\d+)/i`. -/
def findScore : List Char → Option Nat
  | [] => none
  | c :: cs =>
    match matchScoreAt (c :: cs) with
    | some n => some n
    | none => findScore cs

/-- Attempt to match `/Feedback:\s*([\s\S]+)/i` at the head of `s`, returning
the capture.  If everything after the literal is whitespace the greedy `\s*`
backtracks one character so that `[\s\S]+` can match. -/
def matchFeedbackAt (s : List Char) : Option (List Char) :=
  match startsWithCI (("Feedback:").data) s with
  | none => none
  | some rest =>
    let r := rest.dropWhile jsWS
    if r.isEmpty then
      if rest.isEmpty then none else some (rest.drop (rest.length - 1))
    else some r

/-- Scan `s` left to right for the first match of `/Feedback:\s*([\s\S]+)/i`. -/
def findFeedback : List Char → Option (List Char)
  | [] => none
  | c :: cs =>
    match matchFeedbackAt (c :: cs) with
    | some l => some l
    | none => findFeedback cs

/-- The parsed grading payload of `OllamaLLM.gradeAnswer`. -/
structure GradeParsed where
  score : Nat
  feedback : List Char
deriving DecidableEq, Repr

/-- The response-parsing tail of `OllamaLLM.gradeAnswer` in
`src/lib/document-processor.server.ts`:
`score = scoreMatch ? parseInt(scoreMatch[1]) : 50` and
`feedback = feedbackMatch ? feedbackMatch[1].trim() : response.text`. -/
def parseGradeResponse (t : List Char) : GradeParsed :=
  { score := (findScore t).getD 50
    feedback := ((findFeedback t).map trimChars).getD t }

/-! ## Fallback quiz-question generation

The `catch` branches of `generateMultipleChoice` and `generateTrueFalse`
(quiz agent, listed in `src/README.md`). -/

/-- Chunk metadata as consumed by the quiz agent. -/
structure QAChunkMeta where
  chunkIndex : Nat
  topics : List String
  filename : String
  pageNumber : Option ℚ
deriving DecidableEq, Repr

/-- The `DocumentChunk` records handed to the quiz agent. -/
structure DocumentChunk where
  id : String
  content : String
  startIndex : Nat
  endIndex : Nat
  embedding : List ℚ
  metadata : QAChunkMeta
deriving DecidableEq, Repr

/-- A citation attached to a generated quiz question. -/
structure QCitation where
  source : String
  page : Option ℚ
  ctype : String
  relevance : ℚ
deriving DecidableEq, Repr

/-- A generated quiz question; `options` is present only for
multiple-choice questions. -/
structure QuizQuestion where
  id : String
  qtype : String
  question : String
  options : Option (List String)
  correctAnswer : String
  topic : String
  difficulty : String
  citations : List QCitation
deriving DecidableEq, Repr

/-- Sentence-terminating characters of the split pattern `[.!?]`. -/
def isSentEnd (c : Char) : Bool :=
  c = '.' || c = '!' || c = '?'

/-- Does the list start with a whitespace character? -/
def headIsWS : List Char → Bool
  | c :: _ => jsWS c
  | [] => false

/-- Worker for `splitSentences`: `acc` holds the current token reversed. A
split point is a maximal whitespace run immediately preceded by `[.!?]`. -/
def splitAux : List Char → List Char → List (List Char)
  | acc, [] => [acc.reverse]
  | acc, c :: rest =>
    if isSentEnd c && headIsWS rest then
      (c :: acc).reverse :: splitAux [] (rest.dropWhile jsWS)
    else
      splitAux (c :: acc) rest
termination_by _ l => l.length
decreasing_by
· exact Nat.lt_succ_of_le (List.Sublist.length_le (List.dropWhile_sublist _))
· exact Nat.lt_succ_self _

/-- Model of `content.split(/(?<=[.!?])\s+/)`: split on whitespace runs that
follow a sentence terminator.  The lookbehind can never match at position 0,
and the result is never empty. -/
def splitSentences (s : String) : List String :=
  (splitAux [] s.data).map (fun l => ⟨l⟩)

/-- One step of the model of `Array.prototype.sort` under the comparator
`() => 0.5 - Math.random()`: insert `x` into `l`, consuming one random draw
per comparison; `x` is placed before `y` when the draw makes the comparator
non-positive.  ECMAScript leaves the algorithm unspecified; insertion sort is
used as a concrete model. -/
def insertRnd (x : String) : List ℚ → List String → List ℚ × List String
  | rs, [] => (rs, [x])
  | rs, y :: ys =>
    let r := rs.headD (1/2)
    let rs' := rs.tail
    if (1/2 : ℚ) - r ≤ 0 then (rs', x :: y :: ys)
    else
      let p := insertRnd x rs' ys
      (p.1, y :: p.2)

/-- Model of `options.sort(() => 0.5 - Math.random())`: a shuffle driven by
the list `rands` of random draws. -/
def jsRandomSort (rands : List ℚ) (l : List String) : List String :=
  (l.foldl (fun p x => insertRnd x p.1 p.2) (rands, [])).2

/-- The `catch` fallback branch of `generateMultipleChoice` (quiz agent,
`src/README.md`): question and correct answer are the first two sentences of
the chunk, the four options are shuffled with random draws `rands`. -/
def generateMultipleChoiceFallback (chunk : DocumentChunk) (idx : Nat)
    (difficulty : String) (rands : List ℚ) : QuizQuestion :=
  let sentences := splitSentences chunk.content
  let question := jsOrString sentences.head? chunk.content
  let correctAnswer := jsOrString sentences[1]? ("(See document)")
  let options := jsRandomSort rands [correctAnswer, "Option A", "Option B", "Option C"]
  { id := "mcq-" ++ chunk.id ++ "-" ++ toString idx
    qtype := "multiple-choice"
    question := question
    options := some options
    correctAnswer := correctAnswer
    topic := jsOrString chunk.metadata.topics.head? ("General")
    difficulty := difficulty
    citations := [{ source := jsOrString (some chunk.metadata.filename) ("Unknown")
                    page := chunk.metadata.pageNumber
                    ctype := "document"
                    relevance := 1 }] }

/-- The `catch` fallback branch of `generateTrueFalse` (quiz agent,
`src/README.md`): the statement is the first sentence of the chunk and the
correct answer is decided by the random draw `r` (`Math.random() > 0.5`). -/
def generateTrueFalseFallback (chunk : DocumentChunk) (idx : Nat)
    (difficulty : String) (r : ℚ) : QuizQuestion :=
  let statement := jsOrString (splitSentences chunk.content).head? chunk.content
  let isTrue := (1/2 : ℚ) < r
  { id := "tf-" ++ chunk.id ++ "-" ++ toString idx
    qtype := "true-false"
    question := "True or False: " ++ statement
    options := none
    correctAnswer := if isTrue then "True" else "False"
    topic := jsOrString chunk.metadata.topics.head? ("General")
    difficulty := difficulty
    citations := [{ source := jsOrString (some chunk.metadata.filename) ("Unknown")
                    page := chunk.metadata.pageNumber
                    ctype := "document"
                    relevance := 1 }] }

/-- A concrete chunk used by the counterexamples. -/
def demoChunk : DocumentChunk :=
  { id := "doc1_chunk_0"
    content := "Hi."
    startIndex := 0
    endIndex := 3
    embedding := []
    metadata := { chunkIndex := 0, topics := [], filename := "notes.pdf", pageNumber := some 1 } }

/-! ## The vector database

`VectorDatabase` in `src/lib/vector-database.ts`.  Embedding vectors are
JavaScript number arrays, modelled as `List ℝ`. -/

noncomputable section

/-- Metadata of a stored chunk (`StoredChunk.metadata`). -/
structure StoredMeta where
  filename : String
  pageNumber : Option ℚ
  topics : List String
  chunkIndex : Nat

/-- A chunk held by `VectorDatabase` (`StoredChunk` in
`src/lib/vector-database.ts`). -/
structure StoredChunk where
  documentId : String
  chunkId : String
  content : String
  embedding : List ℝ
  metadata : StoredMeta

/-- Metadata carried by a search result. -/
structure ResultMeta where
  filename : String
  pageNumber : Option ℚ
  topics : List String

/-- A ranked search result (`VectorSearchResult` in
`src/lib/vector-database.ts`). -/
structure VectorSearchResult where
  documentId : String
  chunkId : String
  content : String
  similarity : ℝ
  metadata : ResultMeta

/-- The dot-product accumulator of `cosineSimilarity`; the loop runs after
the length guard, so `zipWith` coincides with indexed iteration. -/
def dotProduct (a b : List ℝ) : ℝ :=
  (List.zipWith (fun x y => x * y) a b).sum

/-- The squared-magnitude accumulator of `cosineSimilarity`. -/
def sumSq (a : List ℝ) : ℝ :=
  (a.map (fun x => x * x)).sum

/-- `VectorDatabase.cosineSimilarity`: a hard error on mismatched lengths,
zero when either magnitude is zero, otherwise the normalized dot product. -/
def cosineSimilarity (vecA vecB : List ℝ) : Except String ℝ :=
  if vecA.length ≠ vecB.length then
    .error ("Vectors must have the same length for cosine similarity calculation")
  else if Real.sqrt (sumSq vecA) = 0 ∨ Real.sqrt (sumSq vecB) = 0 then .ok 0
  else .ok (dotProduct vecA vecB / (Real.sqrt (sumSq vecA) * Real.sqrt (sumSq vecB)))

/-- The `this.chunks.map(...)` step of `VectorDatabase.search`: pair every
stored chunk, in store order, with its similarity to the query; the first
mismatched embedding aborts with the error it throws. -/
def computeSimilarities (q : List ℝ) : List StoredChunk → Except String (List (StoredChunk × ℝ))
  | [] => .ok []
  | c :: cs =>
    match cosineSimilarity q c.embedding with
    | .error e => .error e
    | .ok s =>
      match computeSimilarities q cs with
      | .error e => .error e
      | .ok rest => .ok ((c, s) :: rest)

/-- One insertion step of the stable descending sort: `x` is placed before
the first element whose similarity does not exceed `x`'s. -/
def insertDesc (x : StoredChunk × ℝ) : List (StoredChunk × ℝ) → List (StoredChunk × ℝ)
  | [] => [x]
  | y :: ys => if y.2 ≤ x.2 then x :: y :: ys else y :: insertDesc x ys

/-- Model of `similarities.sort((a, b) => b.similarity - a.similarity)`:
`Array.prototype.sort` is stable (ES2019), and a stable sort under a total
preorder is unique, so stable insertion sort is a faithful model. -/
def sortDesc : List (StoredChunk × ℝ) → List (StoredChunk × ℝ)
  | [] => []
  | x :: xs => insertDesc x (sortDesc xs)

/-- The conversion of a ranked chunk to a `VectorSearchResult`. -/
def mkResult (p : StoredChunk × ℝ) : VectorSearchResult :=
  { documentId := p.1.documentId
    chunkId := p.1.chunkId
    content := p.1.content
    similarity := p.2
    metadata := { filename := p.1.metadata.filename
                  pageNumber := p.1.metadata.pageNumber
                  topics := p.1.metadata.topics } }

/-- `VectorDatabase.search`: empty store short-circuits to `[]`; otherwise
rank every chunk, sort by descending similarity, take the first `topK` and
convert. -/
def search (chunks : List StoredChunk) (q : List ℝ) (topK : Nat) :
    Except String (List VectorSearchResult) :=
  if chunks.length = 0 then .ok []
  else
    match computeSimilarities q chunks with
    | .error e => .error e
    | .ok sims => .ok (((sortDesc sims).take topK).map mkResult)

/-- The retrieval pipeline of `TutorAgent.answerQuestion` (steps 2 and 3):
`vectorDb.search` followed by the `MIN_SIMILARITY_THRESHOLD = 0.3` filter. -/
def relevantResults (chunks : List StoredChunk) (q : List ℝ) (k : Nat) :
    Except String (List VectorSearchResult) :=
  match search chunks q k with
  | .error e => .error e
  | .ok rs => .ok (rs.filter (fun r => decide ((0.3 : ℝ) ≤ r.similarity)))

/-- Model of the JavaScript idiom `o?.f || dflt` for optional string fields:
missing object, missing field and empty string all fall back. -/
def jsOrStringOpt (o : Option (Option String)) (dflt : String) : String :=
  match o with
  | some (some s) => if s = "" then dflt else s
  | some none => dflt
  | none => dflt

/-- One element of the `metadata` array passed to `VectorDatabase.add`. -/
structure MetaInput where
  filename : Option String
  pageNumber : Option ℚ
  topics : Option (List String)

/-- The argument record of `VectorDatabase.add`. -/
structure AddDoc where
  documentId : String
  embeddings : List (List ℝ)
  metadata : List MetaInput
  contents : List String

/-- The chunk built by iteration `i` of the loop in `VectorDatabase.add`. -/
def mkChunk (d : AddDoc) (i : Nat) : StoredChunk :=
  { documentId := d.documentId
    chunkId := d.documentId ++ "_chunk_" ++ toString i
    content := d.contents.getD i ("")
    embedding := d.embeddings.getD i []
    metadata := { filename := jsOrStringOpt ((d.metadata[i]?).map MetaInput.filename) ("unknown")
                  pageNumber := (d.metadata[i]?).bind MetaInput.pageNumber
                  topics := ((d.metadata[i]?).bind MetaInput.topics).getD []
                  chunkIndex := i } }

/-- `VectorDatabase.add`: the loop
`for (i = 0; i < embeddings.length; i++) this.chunks.push(chunk_i)`
over the current store contents `st`. -/
def add (st : List StoredChunk) (d : AddDoc) : List StoredChunk :=
  (List.range d.embeddings.length).foldl (fun acc i => acc ++ [mkChunk d i]) st

/-- The specification's approximate equality `x ≈ y`, read with a generous
tolerance of `1/100`. -/
def approxEq (x y : ℝ) : Prop :=
  |x - y| ≤ 1 / 100

/-- A concrete stored chunk used by the witnesses. -/
noncomputable def demoStored : StoredChunk :=
  { documentId := "doc1"
    chunkId := "doc1_chunk_0"
    content := "hello"
    embedding := [1]
    metadata := { filename := "notes.pdf", pageNumber := some 1, topics := ["crypto"], chunkIndex := 0 } }

/-- A concrete add request used by the witnesses. -/
noncomputable def demoDoc : AddDoc :=
  { documentId := "doc2"
    embeddings := [[2]]
    metadata := []
    contents := ["world"] }

/-- A first concrete stored chunk with embedding `[1]`. -/
noncomputable def cA : StoredChunk :=
  { documentId := "docA"
    chunkId := "docA_chunk_0"
    content := "alpha"
    embedding := [1]
    metadata := { filename := "a.pdf", pageNumber := none, topics := [], chunkIndex := 0 } }

/-- A second concrete stored chunk with embedding `[2]`, which ties with
`cA` at similarity 1 against the query `[1]`. -/
noncomputable def cB : StoredChunk :=
  { documentId := "docB"
    chunkId := "docB_chunk_0"
    content := "beta"
    embedding := [2]
    metadata := { filename := "b.pdf", pageNumber := none, topics := [], chunkIndex := 0 } }

end

/-! ## Helper lemmas -/

theorem sumSq_nonneg (a : List ℝ) : 0 ≤ sumSq a := by
  refine List.sum_nonneg ?_
  intro x hx
  obtain ⟨y, _, rfl⟩ := List.mem_map.mp hx
  exact mul_self_nonneg y

theorem dotProduct_self (a : List ℝ) : dotProduct a a = sumSq a := by
  induction a with
  | nil => simp [dotProduct, sumSq]
  | cons x xs ih => simp [dotProduct, sumSq, ih]

theorem sumSq_map_neg (a : List ℝ) : sumSq (a.map (fun x => -x)) = sumSq a := by
  have hc : ((fun x => x * x) ∘ fun x : ℝ => -x) = fun x : ℝ => x * x := by
    funext x
    simp
  unfold sumSq
  rw [List.map_map, hc]

theorem dotProduct_map_neg (a : List ℝ) :
    dotProduct a (a.map (fun x => -x)) = -(sumSq a) := by
  induction a with
  | nil => simp [dotProduct, sumSq]
  | cons x xs ih =>
    simp only [dotProduct, sumSq, List.map_cons, List.zipWith_cons_cons, List.sum_cons] at ih ⊢
    rw [ih]
    ring

theorem cosineSimilarity_of_mismatch (a b : List ℝ) (h : a.length ≠ b.length) :
    cosineSimilarity a b
      = .error ("Vectors must have the same length for cosine similarity calculation") := by
  unfold cosineSimilarity
  rw [if_pos h]

theorem cosineSimilarity_of_zero (a b : List ℝ) (hlen : a.length = b.length)
    (h0 : sumSq a = 0 ∨ sumSq b = 0) : cosineSimilarity a b = .ok 0 := by
  unfold cosineSimilarity
  rw [if_neg (by simp [hlen]), if_pos]
  rcases h0 with h | h
  · exact Or.inl (by rw [h, Real.sqrt_zero])
  · exact Or.inr (by rw [h, Real.sqrt_zero])

theorem cosineSimilarity_of_ne_zero (a b : List ℝ) (hlen : a.length = b.length)
    (ha : sumSq a ≠ 0) (hb : sumSq b ≠ 0) :
    cosineSimilarity a b
      = .ok (dotProduct a b / (Real.sqrt (sumSq a) * Real.sqrt (sumSq b))) := by
  have ha' : 0 < sumSq a := lt_of_le_of_ne (sumSq_nonneg a) (Ne.symm ha)
  have hb' : 0 < sumSq b := lt_of_le_of_ne (sumSq_nonneg b) (Ne.symm hb)
  unfold cosineSimilarity
  rw [if_neg (by simp [hlen]), if_neg]
  push_neg
  exact ⟨(Real.sqrt_ne_zero' ).mpr ha', (Real.sqrt_ne_zero').mpr hb'⟩

theorem cosineSimilarity_self (a : List ℝ) (ha : sumSq a ≠ 0) :
    cosineSimilarity a a = .ok 1 := by
  have hpos : 0 < sumSq a := lt_of_le_of_ne (sumSq_nonneg a) (Ne.symm ha)
  rw [cosineSimilarity_of_ne_zero a a rfl ha ha, dotProduct_self,
    Real.mul_self_sqrt (le_of_lt hpos), div_self (ne_of_gt hpos)]

theorem cosineSimilarity_self_neg (a : List ℝ) (ha : sumSq a ≠ 0) :
    cosineSimilarity a (a.map (fun x => -x)) = .ok (-1) := by
  have hneg : sumSq (a.map (fun x => -x)) ≠ 0 := by rw [sumSq_map_neg]; exact ha
  rw [cosineSimilarity_of_ne_zero a _ (by simp) ha hneg, dotProduct_map_neg, sumSq_map_neg]
  have hpos : 0 < sumSq a := lt_of_le_of_ne (sumSq_nonneg a) (Ne.symm ha)
  have hmul : Real.sqrt (sumSq a) * Real.sqrt (sumSq a) = sumSq a :=
    Real.mul_self_sqrt (le_of_lt hpos)
  rw [hmul, neg_div, div_self (ne_of_gt hpos)]

/-! ## Claims about the similarity computation -/

/-- Claim C2: for every pair of vectors of unequal length, the cosine
similarity computation raises the explicit length-mismatch error and never
returns a numeric result. -/
theorem claim_cosine_length_mismatch (a b : List ℝ) (h : a.length ≠ b.length) :
    cosineSimilarity a b
      = .error ("Vectors must have the same length for cosine similarity calculation")
    ∧ ∀ x : ℝ, cosineSimilarity a b ≠ .ok x := by
  have he := cosineSimilarity_of_mismatch a b h
  refine ⟨he, fun x hx => ?_⟩
  rw [he] at hx
  exact Except.noConfusion hx

/-- Witness for claim C2 at the concrete pair `[1]`, `[1, 2]`. -/
theorem claim_cosine_length_mismatch_w :
    cosineSimilarity [(1 : ℝ)] [1, 2]
      = .error ("Vectors must have the same length for cosine similarity calculation")
    ∧ ∀ x : ℝ, cosineSimilarity [(1 : ℝ)] [1, 2] ≠ .ok x :=
  claim_cosine_length_mismatch [(1 : ℝ)] [1, 2] (by simp)

/-- Claim C4: for equal-length vectors with at least one zero-magnitude
side, the computation returns `0` instead of reaching the division. -/
theorem claim_cosine_zero_magnitude (a b : List ℝ) (hlen : a.length = b.length)
    (h0 : sumSq a = 0 ∨ sumSq b = 0) : cosineSimilarity a b = .ok 0 :=
  cosineSimilarity_of_zero a b hlen h0

/-- Witness for claim C4 at the concrete pair `[0, 0]`, `[3, 4]`. -/
theorem claim_cosine_zero_magnitude_w :
    cosineSimilarity [(0 : ℝ), 0] [3, 4] = .ok 0 :=
  claim_cosine_zero_magnitude [(0 : ℝ), 0] [3, 4] (by simp)
    (Or.inl (by norm_num [sumSq]))

/-- Counterexample to claim C3 as stated: taking `a` to be the zero vector
`[0]`, the code returns similarity `0` for the pair `(a, a)`, which is not
approximately `1`. -/
theorem claim_cosine_self_counterexample :
    cosineSimilarity [(0 : ℝ)] [(0 : ℝ)] = .ok 0 ∧ ¬ approxEq 0 1 := by
  constructor
  · exact cosineSimilarity_of_zero _ _ rfl (Or.inl (by norm_num [sumSq]))
  · intro h
    rw [approxEq] at h
    have : |(0 : ℝ) - 1| = 1 := by norm_num
    rw [this] at h
    norm_num at h

/-- Claim C3 (amended): for every vector `a` of nonzero magnitude, the
similarity of `a` with itself is exactly `1` and with its negation exactly
`-1` in the real-number model; the zero-magnitude case instead returns `0`. -/
theorem claim_cosine_self (a : List ℝ) (ha : sumSq a ≠ 0) :
    cosineSimilarity a a = .ok 1
    ∧ cosineSimilarity a (a.map (fun x => -x)) = .ok (-1) :=
  ⟨cosineSimilarity_self a ha, cosineSimilarity_self_neg a ha⟩

/-- Witness for the amended claim C3 at the concrete vector `[1]`. -/
theorem claim_cosine_self_w :
    sumSq [(1 : ℝ)] ≠ 0
    ∧ (cosineSimilarity [(1 : ℝ)] [(1 : ℝ)] = .ok 1
      ∧ cosineSimilarity [(1 : ℝ)] ([(1 : ℝ)].map (fun x => -x)) = .ok (-1)) :=
  ⟨by norm_num [sumSq], claim_cosine_self [(1 : ℝ)] (by norm_num [sumSq])⟩

/-- Claim C9: searching an empty chunk store returns an empty result list
for every query vector and every `K`, and does not raise an error. -/
theorem claim_search_empty_store (q : List ℝ) (k : Nat) : search [] q k = .ok [] := by
  simp [search]

/-! ## Claim about adding documents -/

theorem foldl_push_eq_append (f : Nat → StoredChunk) (l : List Nat) (st : List StoredChunk) :
    l.foldl (fun acc i => acc ++ [f i]) st = st ++ l.map f := by
  induction l generalizing st with
  | nil => simp
  | cons x xs ih => simp [List.foldl_cons, ih]

/-- Claim C10: `add` appends the new document's chunks at the end of the
store: the result is the old list followed by the freshly built chunks, the
chunk count grows by exactly the number of embeddings, and every previously
stored position is unchanged. -/
theorem claim_add_appends (st : List StoredChunk) (d : AddDoc) :
    add st d = st ++ (List.range d.embeddings.length).map (mkChunk d)
    ∧ (add st d).length = st.length + d.embeddings.length
    ∧ ∀ i, i < st.length → (add st d)[i]? = st[i]? := by
  have he : add st d = st ++ (List.range d.embeddings.length).map (mkChunk d) :=
    foldl_push_eq_append (mkChunk d) (List.range d.embeddings.length) st
  refine ⟨he, ?_, ?_⟩
  · rw [he]
    simp
  · intro i hi
    rw [he]
    rw [List.getElem?_append, if_pos hi]

/-- Witness for claim C10 at a one-chunk store and a one-chunk document. -/
theorem claim_add_appends_w :
    (0 < ([demoStored]).length ∧ (add [demoStored] demoDoc)[0]? = ([demoStored])[0]?)
    ∧ (add [demoStored] demoDoc).length = ([demoStored]).length + 1 := by
  refine ⟨⟨by simp, (claim_add_appends [demoStored] demoDoc).2.2 0 (by simp)⟩, ?_⟩
  have h := (claim_add_appends [demoStored] demoDoc).2.1
  simpa [demoDoc] using h

/-! ## Claims about grading -/

/-- Counterexample to claim C6 as stated: the API route trims surrounding
whitespace before comparing, so the user answer `" a"` scores 100 against the
correct answer `"a"` even though the two are not equal under case-insensitive
comparison alone. -/
theorem claim_grade_closed_counterexample :
    (gradeClosedRoute (" a") ("a")).score = 100
    ∧ (gradeClosedRoute (" a") ("a")).isCorrect = true
    ∧ ¬ ciEq (" a") ("a") := by
  decide

/-- Claim C6 (amended): the API route grades a closed-form answer by
case-insensitive comparison after trimming surrounding whitespace, yielding
100/true on a match and 0/false otherwise; the `QuizGenerator.gradeAnswer`
path compares case-insensitively without trimming. -/
theorem claim_grade_closed_match (u c : String) :
    ((gradeClosedRoute u c).score = if trimCiEq u c then 100 else 0)
    ∧ ((gradeClosedRoute u c).isCorrect = true ↔ trimCiEq u c)
    ∧ ((gradeAnswerClosed u (some c)).score = if ciEq u c then 100 else 0)
    ∧ ((gradeAnswerClosed u (some c)).isCorrect = true ↔ ciEq u c) := by
  unfold gradeClosedRoute gradeAnswerClosed trimCiEq ciEq
  by_cases h : jsTrim (jsToLowerCase u) = jsTrim (jsToLowerCase c) <;>
    by_cases h' : jsToLowerCase u = jsToLowerCase c <;>
      simp [h, h']

/-- Claim C7: when the generator response has no parseable `Score: <number>`
the open-ended grader falls back to the neutral score 50, and when no
`Feedback:` section parses the raw response text is returned as feedback. -/
theorem claim_grade_parse_defaults (t : List Char) :
    (findScore t = none → (parseGradeResponse t).score = 50)
    ∧ (findFeedback t = none → (parseGradeResponse t).feedback = t) := by
  constructor
  · intro h
    simp [parseGradeResponse, h]
  · intro h
    simp [parseGradeResponse, h]

/-- Witness for claim C7 at the concrete response text `"hello"`, which
contains neither a score nor a feedback section. -/
theorem claim_grade_parse_defaults_w :
    (findScore (("hello").data) = none
      ∧ (parseGradeResponse (("hello").data)).score = 50)
    ∧ (findFeedback (("hello").data) = none
      ∧ (parseGradeResponse (("hello").data)).feedback = ("hello").data) :=
  ⟨⟨by decide, (claim_grade_parse_defaults (("hello").data)).1 (by decide)⟩,
   ⟨by decide, (claim_grade_parse_defaults (("hello").data)).2 (by decide)⟩⟩

/-! ## Claims about fallback question generation -/

theorem insertRnd_perm (x : String) : ∀ (rs : List ℚ) (l : List String),
    ((insertRnd x rs l).2).Perm (x :: l) := by
  intro rs l
  induction l generalizing rs with
  | nil => simp [insertRnd]
  | cons y ys ih =>
    simp only [insertRnd]
    split
    · simp
    · exact ((ih rs.tail).cons y).trans (List.Perm.swap x y ys)

theorem foldl_insertRnd_perm : ∀ (l : List String) (rs : List ℚ) (acc : List String),
    ((l.foldl (fun p x => insertRnd x p.1 p.2) (rs, acc)).2).Perm (acc ++ l) := by
  intro l
  induction l with
  | nil => simp
  | cons x xs ih =>
    intro rs acc
    have hstep := ih (insertRnd x rs acc).1 (insertRnd x rs acc).2
    have hins : ((insertRnd x rs acc).2 ++ xs).Perm (acc ++ x :: xs) :=
      (((insertRnd_perm x rs acc).append_right xs)).trans List.perm_middle.symm
    simpa using hstep.trans hins

theorem jsRandomSort_perm (rands : List ℚ) (l : List String) :
    (jsRandomSort rands l).Perm l := by
  simpa using foldl_insertRnd_perm l rands []

/-- Counterexample to claim C8 as stated: the true/false fallback draws
`Math.random()` for the correct answer, so the same chunk yields different
fallback questions on different random draws — the fallback is not
deterministic. -/
theorem claim_fallback_counterexample :
    generateTrueFalseFallback demoChunk 0 ("medium") (3/4)
      ≠ generateTrueFalseFallback demoChunk 0 ("medium") (1/4) := by
  intro h
  have h2 := congrArg QuizQuestion.correctAnswer h
  simp only [generateTrueFalseFallback] at h2
  rw [if_pos (by norm_num), if_neg (by norm_num)] at h2
  exact absurd h2 (by decide)

/-- Claim C8 (amended): on generation failure the fallback question is
synthesized from the chunk text's leading sentences — the multiple-choice
question and correct answer are the first two sentences and the true/false
statement is the first sentence, independently of the random draws — but the
true/false correct answer and the order of the four multiple-choice options
depend on `Math.random()` draws; the options are always a permutation of the
second sentence plus the three fixed distractors. -/
theorem claim_fallback_from_sentences (chunk : DocumentChunk) (idx : Nat)
    (d : String) (r r' : ℚ) (rands rands' : List ℚ) :
    (generateTrueFalseFallback chunk idx d r).question
      = (generateTrueFalseFallback chunk idx d r').question
    ∧ (generateTrueFalseFallback chunk idx d r).question
      = "True or False: " ++ jsOrString (splitSentences chunk.content).head? chunk.content
    ∧ (generateMultipleChoiceFallback chunk idx d rands).question
      = jsOrString (splitSentences chunk.content).head? chunk.content
    ∧ (generateMultipleChoiceFallback chunk idx d rands).correctAnswer
      = jsOrString (splitSentences chunk.content)[1]? ("(See document)")
    ∧ (generateMultipleChoiceFallback chunk idx d rands).question
      = (generateMultipleChoiceFallback chunk idx d rands').question
    ∧ (generateMultipleChoiceFallback chunk idx d rands).correctAnswer
      = (generateMultipleChoiceFallback chunk idx d rands').correctAnswer
    ∧ (((generateMultipleChoiceFallback chunk idx d rands).options.getD []).Perm
        (jsOrString (splitSentences chunk.content)[1]? ("(See document)")
          :: ["Option A", "Option B", "Option C"])) := by
  refine ⟨rfl, rfl, rfl, rfl, rfl, rfl, ?_⟩
  simpa [generateMultipleChoiceFallback] using
    jsRandomSort_perm rands
      [jsOrString (splitSentences chunk.content)[1]? ("(See document)"),
        "Option A", "Option B", "Option C"]

/-! ## Claims about similarity search -/

theorem computeSimilarities_map_fst (q : List ℝ) :
    ∀ (chunks : List StoredChunk) (sims : List (StoredChunk × ℝ)),
      computeSimilarities q chunks = .ok sims → sims.map Prod.fst = chunks := by
  intro chunks
  induction chunks with
  | nil =>
    intro sims h
    simp only [computeSimilarities, Except.ok.injEq] at h
    simp [← h]
  | cons c cs ih =>
    intro sims h
    cases hc : cosineSimilarity q c.embedding with
    | error e => simp [computeSimilarities, hc] at h
    | ok s =>
      cases hr : computeSimilarities q cs with
      | error e => simp [computeSimilarities, hc, hr] at h
      | ok rest =>
        simp only [computeSimilarities, hc, hr, Except.ok.injEq] at h
        rw [← h]
        simp [ih rest hr]

theorem filter_insertDesc_pos (x : StoredChunk × ℝ) (l : List (StoredChunk × ℝ))
    (s : ℝ) (hx : x.2 = s) :
    (insertDesc x l).filter (fun p => decide (p.2 = s))
      = x :: l.filter (fun p => decide (p.2 = s)) := by
  induction l with
  | nil => simp [insertDesc, hx]
  | cons y ys ih =>
    by_cases h : y.2 ≤ x.2
    · simp only [insertDesc]
      rw [if_pos h]
      simp [List.filter_cons, hx]
    · have hy : y.2 ≠ s := by
        intro hys
        exact h (by rw [hys, hx])
      simp only [insertDesc]
      rw [if_neg h]
      simp [List.filter_cons, hy, ih]

theorem filter_insertDesc_neg (x : StoredChunk × ℝ) (l : List (StoredChunk × ℝ))
    (s : ℝ) (hx : x.2 ≠ s) :
    (insertDesc x l).filter (fun p => decide (p.2 = s))
      = l.filter (fun p => decide (p.2 = s)) := by
  induction l with
  | nil => simp [insertDesc, hx]
  | cons y ys ih =>
    by_cases h : y.2 ≤ x.2
    · simp only [insertDesc]
      rw [if_pos h]
      simp [List.filter_cons, hx]
    · simp only [insertDesc]
      rw [if_neg h]
      simp [List.filter_cons, ih]

theorem sortDesc_filter (l : List (StoredChunk × ℝ)) (s : ℝ) :
    (sortDesc l).filter (fun p => decide (p.2 = s))
      = l.filter (fun p => decide (p.2 = s)) := by
  induction l with
  | nil => rfl
  | cons x xs ih =>
    simp only [sortDesc]
    by_cases hx : x.2 = s
    · rw [filter_insertDesc_pos x _ s hx, ih]
      simp [List.filter_cons, hx]
    · rw [filter_insertDesc_neg x _ s hx, ih]
      simp [List.filter_cons, hx]

theorem filter_take_isPre {α : Type} (l : List α) (k : Nat) (p : α → Bool) :
    (l.take k).filter p <+: l.filter p :=
  ⟨(l.drop k).filter p, by rw [← List.filter_append, List.take_append_drop]⟩

theorem isPre_map {α β : Type} {l₁ l₂ : List α} (f : α → β) (h : l₁ <+: l₂) :
    l₁.map f <+: l₂.map f := by
  obtain ⟨t, ht⟩ := h
  exact ⟨t.map f, by rw [← List.map_append, ht]⟩

theorem filter_map_mkResult (l : List (StoredChunk × ℝ)) (s : ℝ) :
    (l.map mkResult).filter (fun r => decide (r.similarity = s))
      = (l.filter (fun p => decide (p.2 = s))).map mkResult := by
  induction l with
  | nil => rfl
  | cons x xs ih =>
    simp only [List.map_cons, List.filter_cons]
    have hsim : (mkResult x).similarity = x.2 := rfl
    rw [hsim]
    by_cases h : x.2 = s
    · simp [h, ih]
    · simp [h, ih]

theorem search_ok_elim (chunks : List StoredChunk) (q : List ℝ) (k : Nat)
    (res : List VectorSearchResult) (hne : ¬ chunks.length = 0)
    (h : search chunks q k = .ok res) :
    ∃ sims, computeSimilarities q chunks = .ok sims
      ∧ res = ((sortDesc sims).take k).map mkResult := by
  unfold search at h
  rw [if_neg hne] at h
  cases hcs : computeSimilarities q chunks with
  | error e =>
    rw [hcs] at h
    simp at h
  | ok sims =>
    rw [hcs] at h
    simp only [Except.ok.injEq] at h
    exact ⟨sims, rfl, h.symm⟩

/-- Claim C5: the similarity sort is stable, so chunks with equal similarity
to the query are returned in their original insertion order: the ranked list
`sims` pairs the stored chunks with their scores in store order, and for any
similarity value `s` the results scoring `s` form a prefix of — hence appear
in the same relative order as — the store-ordered results scoring `s`. -/
theorem claim_search_stable_ties (chunks : List StoredChunk) (q : List ℝ) (k : Nat)
    (sims : List (StoredChunk × ℝ)) (res : List VectorSearchResult)
    (h1 : computeSimilarities q chunks = .ok sims)
    (h2 : search chunks q k = .ok res) (s : ℝ) :
    sims.map Prod.fst = chunks
    ∧ res.filter (fun r => decide (r.similarity = s))
        <+: (sims.map mkResult).filter (fun r => decide (r.similarity = s)) := by
  refine ⟨computeSimilarities_map_fst q chunks sims h1, ?_⟩
  by_cases hne : chunks.length = 0
  · have hnil : chunks = [] := List.length_eq_zero.mp hne
    subst hnil
    simp only [computeSimilarities, Except.ok.injEq] at h1
    simp only [search, if_pos rfl] at h2
    have hres : res = [] := by
      simp only [List.length_nil, if_true, Except.ok.injEq] at h2
      exact h2.symm
    subst hres
    rw [← h1]
    simp
  · obtain ⟨sims', hcs, hres⟩ := search_ok_elim chunks q k res hne h2
    rw [h1] at hcs
    have hss : sims = sims' := by
      injection hcs
    subst hss
    subst hres
    rw [filter_map_mkResult, filter_map_mkResult]
    apply isPre_map
    have hp := filter_take_isPre (sortDesc sims) k (fun p => decide (p.2 = s))
    rwa [sortDesc_filter] at hp

theorem cos_q_cA : cosineSimilarity [(1 : ℝ)] cA.embedding = .ok 1 := by
  rw [show cA.embedding = [(1 : ℝ)] from rfl]
  exact cosineSimilarity_self [(1 : ℝ)] (by norm_num [sumSq])

theorem cos_q_cB : cosineSimilarity [(1 : ℝ)] cB.embedding = .ok 1 := by
  rw [show cB.embedding = [(2 : ℝ)] from rfl]
  rw [cosineSimilarity_of_ne_zero [(1 : ℝ)] [(2 : ℝ)] rfl (by norm_num [sumSq])
    (by norm_num [sumSq])]
  have h1 : sumSq [(1 : ℝ)] = 1 := by norm_num [sumSq]
  have h2 : sumSq [(2 : ℝ)] = 4 := by norm_num [sumSq]
  have hd : dotProduct [(1 : ℝ)] [(2 : ℝ)] = 2 := by norm_num [dotProduct]
  rw [h1, h2, hd, Real.sqrt_one, show (4 : ℝ) = 2 ^ 2 by norm_num,
    Real.sqrt_sq (by norm_num)]
  norm_num

theorem computeSimilarities_demo :
    computeSimilarities [(1 : ℝ)] [cA, cB] = .ok [(cA, 1), (cB, 1)] := by
  simp [computeSimilarities, cos_q_cA, cos_q_cB]

theorem sortDesc_demo : sortDesc [(cA, (1 : ℝ)), (cB, 1)] = [(cA, 1), (cB, 1)] := by
  simp [sortDesc, insertDesc]

theorem search_demo_two :
    search [cA, cB] [(1 : ℝ)] 2 = .ok [mkResult (cA, 1), mkResult (cB, 1)] := by
  unfold search
  rw [if_neg (by simp), computeSimilarities_demo]
  show Except.ok (((sortDesc [(cA, 1), (cB, 1)]).take 2).map mkResult) = _
  rw [sortDesc_demo]
  simp

theorem search_demo_one :
    search [cA, cB] [(1 : ℝ)] 1 = .ok [mkResult (cA, 1)] := by
  unfold search
  rw [if_neg (by simp), computeSimilarities_demo]
  show Except.ok (((sortDesc [(cA, 1), (cB, 1)]).take 1).map mkResult) = _
  rw [sortDesc_demo]
  simp

/-- Witness for claim C5 at a two-chunk store whose chunks tie at
similarity 1: both hypotheses are discharged at concrete inputs, and the tied
chunks come back in store order `cA`, `cB`. -/
theorem claim_search_stable_ties_w :
    ([(cA, (1 : ℝ)), (cB, 1)]).map Prod.fst = [cA, cB]
    ∧ ([mkResult (cA, (1 : ℝ)), mkResult (cB, 1)]).filter
          (fun r => decide (r.similarity = (1 : ℝ)))
        <+: (([(cA, (1 : ℝ)), (cB, 1)]).map mkResult).filter
          (fun r => decide (r.similarity = (1 : ℝ))) :=
  claim_search_stable_ties [cA, cB] [1] 2 [(cA, 1), (cB, 1)]
    [mkResult (cA, 1), mkResult (cB, 1)] computeSimilarities_demo search_demo_two 1

set_option linter.unusedVariables false in
/-- Claim C1: the retrieval pipeline (search with limit `k`, then the 0.3
similarity floor of the tutor agent) returns at most `k` results, each of
similarity at least 0.3. -/
theorem claim_search_topk_floor (chunks : List StoredChunk) (q : List ℝ) (k : Nat)
    (res : List VectorSearchResult) (hK : 0 < k)
    (h : relevantResults chunks q k = .ok res) :
    res.length ≤ k ∧ ∀ r ∈ res, (0.3 : ℝ) ≤ r.similarity := by
  cases hs : search chunks q k with
  | error e =>
    unfold relevantResults at h
    rw [hs] at h
    simp at h
  | ok rs =>
    unfold relevantResults at h
    rw [hs] at h
    simp only [Except.ok.injEq] at h
    have hlen : rs.length ≤ k := by
      by_cases hne : chunks.length = 0
      · unfold search at hs
        rw [if_pos hne] at hs
        simp only [Except.ok.injEq] at hs
        rw [← hs]
        simp
      · obtain ⟨sims, _, hres⟩ := search_ok_elim chunks q k rs hne hs
        rw [hres]
        simp [List.length_take]
    refine ⟨?_, ?_⟩
    · rw [← h]
      exact le_trans (List.length_filter_le _ _) hlen
    · intro r hr
      rw [← h] at hr
      have := List.of_mem_filter hr
      exact of_decide_eq_true this

theorem relevantResults_demo :
    relevantResults [cA, cB] [(1 : ℝ)] 1 = .ok [mkResult (cA, 1)] := by
  unfold relevantResults
  rw [search_demo_one]
  show Except.ok (([mkResult (cA, (1 : ℝ))]).filter
    (fun r => decide ((0.3 : ℝ) ≤ r.similarity))) = _
  rw [List.filter_cons]
  have hs : decide ((0.3 : ℝ) ≤ (mkResult (cA, (1 : ℝ))).similarity) = true := by
    rw [show (mkResult (cA, (1 : ℝ))).similarity = 1 from rfl]
    exact decide_eq_true (by norm_num)
  rw [hs]
  simp

/-- Witness for claim C1 at a two-chunk store with `k = 1`: the pipeline
returns the single result `cA` with similarity 1 ≥ 0.3. -/
theorem claim_search_topk_floor_w :
    ([mkResult (cA, (1 : ℝ))]).length ≤ 1
    ∧ ∀ r ∈ [mkResult (cA, (1 : ℝ))], (0.3 : ℝ) ≤ r.similarity :=
  claim_search_topk_floor [cA, cB] [1] 1 [mkResult (cA, 1)] (by norm_num)
    relevantResults_demo
